import Mathlib

/-!
# Verification of the dirty-tracker event reconciliation engine

Shallow embedding of `src/lib.rs` of the `dirty-tracker` crate.

Modelling choices:
* A filesystem path (`PathBuf`) is a list of components, each component a `Nat`
  (`FsPath`).  `Path::strip_prefix` becomes prefix test plus `List.drop`.
* The `HashSet<PathBuf>` fields become `Finset FsPath`.
* A notify `Event` is its kind (`Create`/`Modify`/`Remove`, everything else
  collapsed to `other`, matching the `_ => {}` arm), its list of paths, and the
  boolean that `event.need_rescan()` returns.
* The mpsc channel of a drain is modelled by the list of events that arrive
  before the receive call would stop yielding, together with what the channel
  does once that list is exhausted (`ChanEnd`): still open (a further receive
  blocks, or times out when a timeout was supplied) or disconnected.
  Channel items of the form `Ok(Err(_))`, on which the code panics, are not
  modelled: every delivered item is an event.
* `tempfile::NamedTempFile::new_in(..).unwrap()` can fail, in which case the
  code panics; `process_pending` therefore takes a flag saying whether marker
  creation succeeded and returns `DrainFull.panicked` when it did not.
* A `recv()` with no timeout on an open, exhausted channel never returns; this
  is the `DrainOutcome.blocks` outcome (the query produces no result).
-/

/-- A filesystem path, as a list of path components. -/
abbrev FsPath := List Nat

/-- Event kinds of the notify crate as matched by `process_pending_event`:
`Create(_)`, `Modify(_)`, `Remove(_)`, and everything else (the `_ => {}` arm,
covering `Access`, `Any`, `Other`). -/
inductive EventKind where
  | create
  | modify
  | remove
  | other
  deriving DecidableEq, Repr

/-- A notify event: its kind, the affected paths, and the value of
`event.need_rescan()` (true when the event carries the rescan/overflow flag). -/
structure Event where
  kind : EventKind
  paths : List FsPath
  need_rescan : Bool
  deriving DecidableEq, Repr

/-- The tracker state: the watched root (`path`), the dirty-path set (`paths`),
the created-since-mark set (`created`), and the sticky rescan flag
(`need_rescan`).  The channel receiver and watcher are modelled separately as
drain parameters. -/
structure DirtyTracker where
  path : FsPath
  paths : Finset FsPath
  created : Finset FsPath
  need_rescan : Bool
  deriving DecidableEq

/-- The `State` enum. -/
inductive State where
  | clean
  | dirty
  | unknown
  deriving DecidableEq, Repr

/-- The `ProcessError` enum: `Timeout(Duration)` (duration as a `Nat`) and
`Disconnected`. -/
inductive ProcessError where
  | timeout (d : Nat)
  | disconnected
  deriving DecidableEq, Repr

/-- What the channel does once the modelled list of arriving events is
exhausted: it is still open (nothing more arrives in time) or the sender side
has been dropped. -/
inductive ChanEnd where
  | stillOpen
  | disconnected
  deriving DecidableEq, Repr

/-- Result of one run of the drain loop of `process_pending`: normal return
(`Ok(())`), an error return, or blocking forever (only possible for `recv()`
with no timeout on an open channel that never delivers the sentinel). -/
inductive DrainOutcome where
  | ok
  | err (e : ProcessError)
  | blocks
  deriving DecidableEq, Repr

/-- Result of a full `process_pending` call, marker creation included: either
the panic of the `unwrap` on marker-file creation, or the drain ran and
produced a new tracker, an outcome, and the unconsumed rest of the channel. -/
inductive DrainFull where
  | panicked
  | ran (t : DirtyTracker) (o : DrainOutcome) (rest : List Event)
  deriving DecidableEq

/-- Result of a computation that may panic (`unwrap` in `relpaths`). -/
inductive PanicOr (α : Type) where
  | panicked
  | value (a : α)
  deriving DecidableEq

/-- The freshly constructed tracker for a root: empty sets, rescan flag off
(`DirtyTracker::new`, the parts of it that are state). -/
def DirtyTracker.initial (root : FsPath) : DirtyTracker :=
  { path := root, paths := ∅, created := ∅, need_rescan := false }

/-- Embedding of `DirtyTracker::process_pending_event`: set the sticky rescan
flag when the event carries it, then fold the event's paths into the sets
according to its kind. -/
def process_pending_event (t : DirtyTracker) (e : Event) : DirtyTracker :=
  let t1 := if e.need_rescan then { t with need_rescan := true } else t
  match e.kind with
  | EventKind.create =>
      e.paths.foldl
        (fun s q => { s with created := insert q s.created, paths := insert q s.paths }) t1
  | EventKind.modify =>
      e.paths.foldl (fun s q => { s with paths := insert q s.paths }) t1
  | EventKind.remove =>
      e.paths.foldl
        (fun s q =>
          if q ∈ s.created then
            { s with paths := s.paths.erase q, created := s.created.erase q }
          else
            { s with paths := insert q s.paths }) t1
  | EventKind.other => t1

/-- Application of a whole sequence of events, in order, to a tracker: the
reconciliation a drain performs on the events it consumes. -/
def applyAll (t : DirtyTracker) (evs : List Event) : DirtyTracker :=
  evs.foldl process_pending_event t

/-- Embedding of the `is_sentinel_delete_event` closure of `process_pending`:
a `Remove` event one of whose paths equals the marker (dummy) path. -/
def is_sentinel_delete_event (dummy : FsPath) (e : Event) : Bool :=
  decide (e.kind = EventKind.remove) && e.paths.any (fun p => p == dummy)

/-- Embedding of the receive loop of `DirtyTracker::process_pending`: pull
events and apply them until the sentinel delete event is seen (apply it too and
stop, leaving the rest unconsumed); on exhaustion return `Disconnected`,
`Timeout` (when a timeout was supplied), or block forever. -/
def drainGo (dummy : FsPath) (tmo : Option Nat) :
    DirtyTracker → List Event → ChanEnd → DirtyTracker × DrainOutcome × List Event
  | t, [], ChanEnd.disconnected => (t, DrainOutcome.err ProcessError.disconnected, [])
  | t, [], ChanEnd.stillOpen =>
      match tmo with
      | some d => (t, DrainOutcome.err (ProcessError.timeout d), [])
      | none => (t, DrainOutcome.blocks, [])
  | t, ev :: rest, e =>
      let t1 := process_pending_event t ev
      if is_sentinel_delete_event dummy ev then (t1, DrainOutcome.ok, rest)
      else drainGo dummy tmo t1 rest e

/-- Embedding of `DirtyTracker::process_pending`, marker creation included:
`markerOk` says whether creating and writing the marker temp file succeeded;
on failure the code panics (`unwrap`), otherwise the receive loop runs. -/
def process_pending (t : DirtyTracker) (markerOk : Bool) (dummy : FsPath)
    (tmo : Option Nat) (evs : List Event) (e : ChanEnd) : DrainFull :=
  if markerOk then
    let r := drainGo dummy tmo t evs e
    DrainFull.ran r.1 r.2.1 r.2.2
  else DrainFull.panicked

/-- The pure tail of `DirtyTracker::state`, taking the tracker as it is after
the drain and the drain's outcome.  `none` means the call never returns
(blocked drain). -/
def stateFromDrain (t : DirtyTracker) (o : DrainOutcome) : Option State :=
  match o with
  | DrainOutcome.blocks => none
  | DrainOutcome.err _ => some State.unknown
  | DrainOutcome.ok =>
      some (if t.need_rescan then State.unknown
            else if t.paths = ∅ then State.clean
            else State.dirty)

/-- The pure tail of `DirtyTracker::paths`: `some none` is the `None` return
(unknown state), `some (some s)` the `Some(&self.paths)` return, and the outer
`none` a call that never returns. -/
def pathsFromDrain (t : DirtyTracker) (o : DrainOutcome) :
    Option (Option (Finset FsPath)) :=
  match o with
  | DrainOutcome.blocks => none
  | DrainOutcome.err _ => some none
  | DrainOutcome.ok =>
      some (if t.need_rescan then none else some t.paths)

/-- Embedding of `DirtyTracker::state`: drain with no timeout, then report. -/
def stateQuery (t : DirtyTracker) (dummy : FsPath) (evs : List Event)
    (e : ChanEnd) : Option State :=
  let r := drainGo dummy none t evs e
  stateFromDrain r.1 r.2.1

/-- Embedding of `DirtyTracker::paths`: drain with no timeout, then report. -/
def pathsQuery (t : DirtyTracker) (dummy : FsPath) (evs : List Event)
    (e : ChanEnd) : Option (Option (Finset FsPath)) :=
  let r := drainGo dummy none t evs e
  pathsFromDrain r.1 r.2.1

/-- The loop body of `DirtyTracker::relpaths` over the whole dirty set: strip
the root from every element with `strip_prefix(..).unwrap()`; the `unwrap`
panics as soon as some element does not have the root as a prefix. -/
def stripAllUnwrap (root : FsPath) (s : Finset FsPath) : PanicOr (Finset FsPath) :=
  if ∀ p ∈ s, root.isPrefixOf p = true then
    PanicOr.value (s.image (fun p => p.drop root.length))
  else PanicOr.panicked

/-- The pure tail of `DirtyTracker::relpaths`: map the result of `paths()`
through the strip-and-unwrap loop. -/
def relpathsFromDrain (t : DirtyTracker) (o : DrainOutcome) :
    Option (PanicOr (Option (Finset FsPath))) :=
  (pathsFromDrain t o).map (fun po =>
    match po with
    | none => PanicOr.value none
    | some s =>
        match stripAllUnwrap t.path s with
        | PanicOr.panicked => PanicOr.panicked
        | PanicOr.value r => PanicOr.value (some r))

/-- Embedding of `DirtyTracker::mark_clean`: run a drain with no timeout,
swallow its error, then clear the rescan flag and both sets.  `none` when the
drain blocks forever (the call would never return). -/
def mark_clean (t : DirtyTracker) (dummy : FsPath) (evs : List Event)
    (e : ChanEnd) : Option (DirtyTracker × List Event) :=
  let r := drainGo dummy none t evs e
  match r.2.1 with
  | DrainOutcome.blocks => none
  | _ => some ({ r.1 with need_rescan := false, paths := ∅, created := ∅ }, r.2.2)

/-! ## Spec-side definitions for the create/delete cancellation law (C1) -/

/-- Modelled from the spec: the set of all paths touched by a sequence of
events (every path carried by any event of the sequence). -/
def touchedPaths (evs : List Event) : Finset FsPath :=
  evs.foldl (fun s e => s ∪ e.paths.toFinset) ∅

/-- Modelled from the spec: the paths carried by some `Create` event of the
sequence. -/
def createdEventPaths (evs : List Event) : Finset FsPath :=
  evs.foldl
    (fun s e => if e.kind = EventKind.create then s ∪ e.paths.toFinset else s) ∅

/-- Modelled from the spec: the paths carried by some `Remove` event of the
sequence. -/
def removedEventPaths (evs : List Event) : Finset FsPath :=
  evs.foldl
    (fun s e => if e.kind = EventKind.remove then s ∪ e.paths.toFinset else s) ∅

/-- Modelled from the spec sentence of C1: the touched paths minus every path
that was both created and removed within the window. -/
def specDirtySet (evs : List Event) : Finset FsPath :=
  touchedPaths evs \ (createdEventPaths evs ∩ removedEventPaths evs)

/-- The per-path two-bit automaton that `process_pending_event` implements for
a fixed path: the state is (is the path in `paths`, is it in `created`). -/
def stepP : Bool × Bool → EventKind → Bool × Bool
  | _, EventKind.create => (true, true)
  | s, EventKind.modify => (true, s.2)
  | s, EventKind.remove => if s.2 then (false, false) else (true, s.2)
  | s, EventKind.other => s

/-- The kinds of the events of the sequence that touch the path `p`, in
order. -/
def kindsAt (p : FsPath) (evs : List Event) : List EventKind :=
  (evs.filter (fun e => decide (p ∈ e.paths))).map Event.kind

/-- Scan a reversed kind sequence for a `Create` that precedes (in original
order: follows) without any intervening `Remove`. -/
def cancelScan : List EventKind → Bool
  | [] => false
  | EventKind.create :: _ => true
  | EventKind.remove :: _ => false
  | _ :: rest => cancelScan rest

/-- A kind sequence ends cancelled when its last element is a `Remove` that is
preceded by a `Create` with no `Remove` in between: exactly the runs on which
the reconciler's create/delete cancellation leaves the path clean. -/
def endsCancelled (ks : List EventKind) : Bool :=
  match ks.reverse with
  | EventKind.remove :: rest => cancelScan rest
  | _ => false

example :
    (applyAll (DirtyTracker.initial [0])
      [⟨EventKind.create, [[1]], false⟩, ⟨EventKind.remove, [[1]], false⟩,
       ⟨EventKind.modify, [[1]], false⟩]).paths = {[1]} := by decide

example :
    specDirtySet
      [⟨EventKind.create, [[1]], false⟩, ⟨EventKind.remove, [[1]], false⟩,
       ⟨EventKind.modify, [[1]], false⟩] = ∅ := by decide

example : endsCancelled [EventKind.create, EventKind.remove] = true := by decide
example : endsCancelled [EventKind.create, EventKind.remove, EventKind.modify] = false := by decide
example : endsCancelled [EventKind.remove, EventKind.create, EventKind.remove] = true := by decide
example : endsCancelled [EventKind.modify, EventKind.remove] = false := by decide

/-! ## Basic lemmas about `process_pending_event` -/

lemma foldl_tracker_need_rescan (g : DirtyTracker → FsPath → DirtyTracker)
    (hg : ∀ s q, (g s q).need_rescan = s.need_rescan) :
    ∀ (l : List FsPath) (t : DirtyTracker), (l.foldl g t).need_rescan = t.need_rescan := by
  intro l
  induction l with
  | nil => intro t; rfl
  | cons q l ih => intro t; rw [List.foldl_cons, ih, hg]

lemma foldl_tracker_path (g : DirtyTracker → FsPath → DirtyTracker)
    (hg : ∀ s q, (g s q).path = s.path) :
    ∀ (l : List FsPath) (t : DirtyTracker), (l.foldl g t).path = t.path := by
  intro l
  induction l with
  | nil => intro t; rfl
  | cons q l ih => intro t; rw [List.foldl_cons, ih, hg]

/-- The rescan flag after one event: it was on before, or the event carries
it. -/
lemma ppe_need_rescan (t : DirtyTracker) (e : Event) :
    (process_pending_event t e).need_rescan = (t.need_rescan || e.need_rescan) := by
  have h1 : (if e.need_rescan then { t with need_rescan := true } else t).need_rescan
      = (t.need_rescan || e.need_rescan) := by
    cases e.need_rescan <;> simp
  cases hk : e.kind <;> simp only [process_pending_event, hk] <;>
    first
      | (rw [foldl_tracker_need_rescan]
         · exact h1
         · intro s q; first | rfl | (by_cases hq : q ∈ s.created <;> simp [hq]))
      | exact h1

/-- The root path is never changed by event processing. -/
lemma ppe_path (t : DirtyTracker) (e : Event) :
    (process_pending_event t e).path = t.path := by
  have h1 : (if e.need_rescan then { t with need_rescan := true } else t).path = t.path := by
    cases e.need_rescan <;> simp
  cases hk : e.kind <;> simp only [process_pending_event, hk] <;>
    first
      | (rw [foldl_tracker_path]
         · exact h1
         · intro s q; first | rfl | (by_cases hq : q ∈ s.created <;> simp [hq]))
      | exact h1

/-- C2: the reconciliation table, for an event affecting a single path.
`Create(p)` inserts `p` into both `paths` and `created`; `Modify(p)` inserts it
into `paths` only; `Remove(p)` either cancels (erasing `p` from both sets, when
`p` was created in this window) or inserts it into `paths`.  The function is
total by construction: no event is rejected. -/
theorem claim2_reconciliation_table (t : DirtyTracker) (p : FsPath) (f : Bool) :
    process_pending_event t ⟨EventKind.create, [p], f⟩
      = { t with need_rescan := t.need_rescan || f,
                 paths := insert p t.paths, created := insert p t.created } ∧
    process_pending_event t ⟨EventKind.modify, [p], f⟩
      = { t with need_rescan := t.need_rescan || f, paths := insert p t.paths } ∧
    process_pending_event t ⟨EventKind.remove, [p], f⟩
      = (if p ∈ t.created then
          { t with need_rescan := t.need_rescan || f,
                   paths := t.paths.erase p, created := t.created.erase p }
         else
          { t with need_rescan := t.need_rescan || f, paths := insert p t.paths }) := by
  refine ⟨?_, ?_, ?_⟩ <;> cases f <;>
    by_cases hp : p ∈ t.created <;>
      simp [process_pending_event, hp]

/-! ## Drain lemmas -/

/-- What the receive loop returns once the modelled event list is exhausted
without the sentinel having been seen. -/
def exhaustOutcome : ChanEnd → Option Nat → DrainOutcome
  | ChanEnd.disconnected, _ => DrainOutcome.err ProcessError.disconnected
  | ChanEnd.stillOpen, some d => DrainOutcome.err (ProcessError.timeout d)
  | ChanEnd.stillOpen, none => DrainOutcome.blocks

/-- A drain that never sees the sentinel applies every arriving event and ends
with the exhaustion outcome of the channel. -/
lemma drainGo_no_sentinel (dummy : FsPath) (tmo : Option Nat)
    (evs : List Event) (e : ChanEnd)
    (h : ∀ ev ∈ evs, is_sentinel_delete_event dummy ev = false) :
    ∀ t, drainGo dummy tmo t evs e = (applyAll t evs, exhaustOutcome e tmo, []) := by
  induction evs with
  | nil =>
      intro t
      cases e with
      | disconnected => rfl
      | stillOpen => cases tmo <;> rfl
  | cons ev evs ih =>
      intro t
      have hev := h ev (List.mem_cons_self _ _)
      have h2 : ∀ x ∈ evs, is_sentinel_delete_event dummy x = false :=
        fun x hx => h x (List.mem_cons_of_mem _ hx)
      show drainGo dummy tmo t (ev :: evs) e = _
      rw [drainGo]
      simp only [hev, Bool.false_eq_true, if_false]
      rw [ih h2]
      rfl

/-- A drain whose event list splits as non-sentinel events, the sentinel, and
a tail, applies exactly the prefix and the sentinel and leaves the tail. -/
lemma drainGo_split_sentinel (dummy : FsPath) (tmo : Option Nat)
    (pre : List Event) (m : Event) (post : List Event) (e : ChanEnd)
    (hpre : ∀ ev ∈ pre, is_sentinel_delete_event dummy ev = false)
    (hm : is_sentinel_delete_event dummy m = true) :
    ∀ t, drainGo dummy tmo t (pre ++ m :: post) e
      = (applyAll t (pre ++ [m]), DrainOutcome.ok, post) := by
  induction pre with
  | nil =>
      intro t
      show drainGo dummy tmo t (m :: post) e = _
      rw [drainGo]
      simp only [hm, if_true]
      rfl
  | cons ev pre ih =>
      intro t
      have hev := hpre ev (List.mem_cons_self _ _)
      have h2 : ∀ x ∈ pre, is_sentinel_delete_event dummy x = false :=
        fun x hx => hpre x (List.mem_cons_of_mem _ hx)
      show drainGo dummy tmo t (ev :: (pre ++ m :: post)) e = _
      rw [drainGo]
      simp only [hev, Bool.false_eq_true, if_false]
      rw [ih h2]
      rfl

/-- C3: the drain applies every event preceding the first sentinel-delete
event (the `Remove` of the marker path), applies that sentinel event itself,
returns `Ok`, and leaves every later event unconsumed for the next drain. -/
theorem claim3_drain_stops_at_marker (dummy : FsPath) (tmo : Option Nat)
    (pre : List Event) (m : Event) (post : List Event) (e : ChanEnd)
    (t : DirtyTracker)
    (hpre : ∀ ev ∈ pre, is_sentinel_delete_event dummy ev = false)
    (hm : is_sentinel_delete_event dummy m = true) :
    drainGo dummy tmo t (pre ++ m :: post) e
      = (applyAll t (pre ++ [m]), DrainOutcome.ok, post) :=
  drainGo_split_sentinel dummy tmo pre m post e hpre hm t

/-- Witness for C3 at a concrete drain: one preceding modify event is applied,
the marker's remove stops the drain, a later create event is left over. -/
theorem claim3_witness :
    drainGo [1] none (DirtyTracker.initial [0])
        ([⟨EventKind.modify, [[2]], false⟩]
          ++ ⟨EventKind.remove, [[1]], false⟩ :: [⟨EventKind.create, [[3]], false⟩])
        ChanEnd.stillOpen
      = (applyAll (DirtyTracker.initial [0])
          [⟨EventKind.modify, [[2]], false⟩, ⟨EventKind.remove, [[1]], false⟩],
         DrainOutcome.ok, [⟨EventKind.create, [[3]], false⟩]) :=
  claim3_drain_stops_at_marker [1] none
    [⟨EventKind.modify, [[2]], false⟩] ⟨EventKind.remove, [[1]], false⟩
    [⟨EventKind.create, [[3]], false⟩] ChanEnd.stillOpen
    (DirtyTracker.initial [0]) (by decide) (by decide)

/-- C7: on a disconnected channel a drain (that never sees its own fresh
marker, which cannot have been delivered by a dead watcher) applies the
buffered events and returns the `Disconnected` error, and the two queries
report `Unknown` and `None`.  Quantifying over the tracker state and the
buffered events makes this the fate of every later call on the tracker: the
channel never reconnects, so the tracker is permanently `Unknown`. -/
theorem claim7_disconnected_permanently_unknown (t : DirtyTracker)
    (dummy : FsPath) (evs : List Event)
    (h : ∀ ev ∈ evs, is_sentinel_delete_event dummy ev = false) :
    drainGo dummy none t evs ChanEnd.disconnected
        = (applyAll t evs, DrainOutcome.err ProcessError.disconnected, [])
      ∧ stateQuery t dummy evs ChanEnd.disconnected = some State.unknown
      ∧ pathsQuery t dummy evs ChanEnd.disconnected = some none := by
  have hd := drainGo_no_sentinel dummy none evs ChanEnd.disconnected h t
  refine ⟨hd, ?_, ?_⟩
  · show stateFromDrain _ _ = _
    rw [hd]
    rfl
  · show pathsFromDrain _ _ = _
    rw [hd]
    rfl

/-- Witness for C7 at a concrete disconnected tracker with one buffered
event. -/
theorem claim7_witness :
    drainGo [1] none (DirtyTracker.initial [0])
        [⟨EventKind.modify, [[2]], false⟩] ChanEnd.disconnected
        = (applyAll (DirtyTracker.initial [0]) [⟨EventKind.modify, [[2]], false⟩],
           DrainOutcome.err ProcessError.disconnected, [])
      ∧ stateQuery (DirtyTracker.initial [0]) [1]
          [⟨EventKind.modify, [[2]], false⟩] ChanEnd.disconnected = some State.unknown
      ∧ pathsQuery (DirtyTracker.initial [0]) [1]
          [⟨EventKind.modify, [[2]], false⟩] ChanEnd.disconnected = some none :=
  claim7_disconnected_permanently_unknown (DirtyTracker.initial [0]) [1]
    [⟨EventKind.modify, [[2]], false⟩] (by decide)

/-- C8: a drain with a timeout that never observes the marker's remove event
returns `Timeout` carrying the supplied duration, and the tracker it leaves
behind is exactly the one obtained by applying every event drained before the
timeout: partial progress is kept, nothing is rolled back. -/
theorem claim8_timeout_keeps_partial_progress (t : DirtyTracker)
    (dummy : FsPath) (evs : List Event) (d : Nat)
    (h : ∀ ev ∈ evs, is_sentinel_delete_event dummy ev = false) :
    drainGo dummy (some d) t evs ChanEnd.stillOpen
      = (applyAll t evs, DrainOutcome.err (ProcessError.timeout d), []) :=
  drainGo_no_sentinel dummy (some d) evs ChanEnd.stillOpen h t

/-- Witness for C8 at a concrete timed-out drain with two buffered events. -/
theorem claim8_witness :
    drainGo [1] (some 5) (DirtyTracker.initial [0])
        [⟨EventKind.create, [[2]], false⟩, ⟨EventKind.modify, [[3]], false⟩]
        ChanEnd.stillOpen
      = (applyAll (DirtyTracker.initial [0])
          [⟨EventKind.create, [[2]], false⟩, ⟨EventKind.modify, [[3]], false⟩],
         DrainOutcome.err (ProcessError.timeout 5), []) :=
  claim8_timeout_keeps_partial_progress (DirtyTracker.initial [0]) [1]
    [⟨EventKind.create, [[2]], false⟩, ⟨EventKind.modify, [[3]], false⟩] 5
    (by decide)

/-- C9 counterexample: when creating the marker file fails, `process_pending`
does not surface any error value to the caller — the `unwrap` panics.  The
`ProcessError` type has no resource-error variant at all, so no "resource
error distinct from Timeout and Disconnected" can be returned. -/
theorem claim9_counterexample :
    process_pending (DirtyTracker.initial [0]) false [1] none [] ChanEnd.stillOpen
      = DrainFull.panicked := rfl

/-- C9 amended: a marker-creation failure is not masked — the call panics
(the `unwrap` aborts) before any event is consumed or any tracker field is
mutated, rather than returning a `Timeout` or `Disconnected` error; the code
has no resource-error return for this case. -/
theorem claim9_amended_marker_failure_panics (t : DirtyTracker) (dummy : FsPath)
    (tmo : Option Nat) (evs : List Event) (e : ChanEnd) :
    process_pending t false dummy tmo evs e = DrainFull.panicked := rfl

/-! ## Per-path analysis of the reconciler (for C1) -/

/-- Membership of a fixed path `p` in the two sets after one single-path event
follows the two-bit automaton `stepP` when the event touches `p`, and is
unchanged otherwise. -/
lemma ppe_single_mem (t : DirtyTracker) (k : EventKind) (q : FsPath) (f : Bool)
    (p : FsPath) :
    (decide (p ∈ (process_pending_event t ⟨k, [q], f⟩).paths),
     decide (p ∈ (process_pending_event t ⟨k, [q], f⟩).created))
      = if q = p then stepP (decide (p ∈ t.paths), decide (p ∈ t.created)) k
        else (decide (p ∈ t.paths), decide (p ∈ t.created)) := by
  cases f <;> cases k <;>
    by_cases hqp : q = p <;>
      by_cases hqc : q ∈ t.created <;>
        by_cases hpc : p ∈ t.created <;>
          first
            | (subst hqp; simp_all [process_pending_event, stepP])
            | simp_all [process_pending_event, stepP, Ne.symm hqp]

/-- Characterisation of the two-bit automaton over a whole kind sequence that
contains no uninterpreted kinds: the path ends up in `paths` exactly when the
sequence is non-empty and does not end cancelled, and in `created` exactly when
a create follows the last remove. -/
lemma stepP_foldl_char (ks : List EventKind)
    (h : ∀ k ∈ ks, k ≠ EventKind.other) :
    List.foldl stepP (false, false) ks
      = (!ks.isEmpty && !endsCancelled ks, cancelScan ks.reverse) := by
  induction ks using List.reverseRecOn with
  | nil => rfl
  | append_singleton l k ih =>
      have hl : ∀ x ∈ l, x ≠ EventKind.other := fun x hx => h x (by simp [hx])
      have hk : k ≠ EventKind.other := h k (by simp)
      rw [List.foldl_append, ih hl]
      cases k with
      | create =>
          simp [stepP, endsCancelled, cancelScan, List.reverse_append]
      | modify =>
          simp [stepP, endsCancelled, cancelScan, List.reverse_append]
      | remove =>
          cases hc : cancelScan l.reverse <;>
            simp [stepP, endsCancelled, cancelScan, List.reverse_append, hc]
      | other => exact absurd rfl hk

/-- Membership of a fixed path in the two sets after a whole sequence of
single-path events is the automaton run over the kinds of the events touching
that path. -/
lemma applyAll_mem (evs : List Event) (h : ∀ e ∈ evs, ∃ q, e.paths = [q]) :
    ∀ (t : DirtyTracker) (p : FsPath),
    (decide (p ∈ (applyAll t evs).paths), decide (p ∈ (applyAll t evs).created))
      = List.foldl stepP (decide (p ∈ t.paths), decide (p ∈ t.created))
          (kindsAt p evs) := by
  induction evs with
  | nil => intro t p; rfl
  | cons e evs ih =>
      intro t p
      obtain ⟨ek, eps, ef⟩ := e
      obtain ⟨q, hq⟩ := h _ (List.mem_cons_self _ _)
      simp only at hq
      subst hq
      have h2 : ∀ x ∈ evs, ∃ r, x.paths = [r] :=
        fun x hx => h x (List.mem_cons_of_mem _ hx)
      have ha : applyAll t (⟨ek, [q], ef⟩ :: evs)
          = applyAll (process_pending_event t ⟨ek, [q], ef⟩) evs := rfl
      rw [ha, ih h2, ppe_single_mem]
      by_cases hqp : q = p
      · subst hqp
        have hkinds : kindsAt q (⟨ek, [q], ef⟩ :: evs) = ek :: kindsAt q evs := by
          simp [kindsAt]
        rw [hkinds, List.foldl_cons, if_pos rfl]
      · have hkinds : kindsAt p (⟨ek, [q], ef⟩ :: evs) = kindsAt p evs := by
          simp [kindsAt, hqp, Ne.symm hqp]
        rw [hkinds, if_neg hqp]

/-- Membership in the touched-paths fold, with a general accumulator. -/
lemma mem_touchedPaths_foldl (evs : List Event) :
    ∀ (s0 : Finset FsPath) (p : FsPath),
    (p ∈ evs.foldl (fun s e => s ∪ e.paths.toFinset) s0
      ↔ p ∈ s0 ∨ ∃ e ∈ evs, p ∈ e.paths) := by
  induction evs with
  | nil => intro s0 p; simp
  | cons e evs ih =>
      intro s0 p
      rw [List.foldl_cons, ih]
      simp [List.mem_toFinset, or_assoc]

/-- A path is touched by the sequence exactly when some event carries it. -/
lemma mem_touchedPaths (evs : List Event) (p : FsPath) :
    p ∈ touchedPaths evs ↔ ∃ e ∈ evs, p ∈ e.paths := by
  rw [touchedPaths, mem_touchedPaths_foldl]
  simp

/-- The kind sequence at a path is empty exactly when no event touches the
path. -/
lemma kindsAt_eq_nil (p : FsPath) (evs : List Event) :
    kindsAt p evs = [] ↔ ∀ e ∈ evs, p ∉ e.paths := by
  simp [kindsAt, List.filter_eq_nil_iff]

/-- C1 counterexample: the sequence Create(p), Remove(p), Modify(p) touches
only `p`, and `p` is both created and removed within the window, so the
claimed law predicts an empty dirty set; the code's reconciler leaves `p`
dirty (the modify after the cancellation re-dirties it). -/
theorem claim1_counterexample :
    (applyAll (DirtyTracker.initial [0])
        [⟨EventKind.create, [[1]], false⟩, ⟨EventKind.remove, [[1]], false⟩,
         ⟨EventKind.modify, [[1]], false⟩]).paths
      ≠ specDirtySet
          [⟨EventKind.create, [[1]], false⟩, ⟨EventKind.remove, [[1]], false⟩,
           ⟨EventKind.modify, [[1]], false⟩] := by decide

/-- C1 amended: for every fully drained sequence of single-path
create/modify/remove events, the resulting dirty set is the set of touched
paths minus every path whose event subsequence ends with a remove that cancels
a create of the same window (a create followed, before that final remove, only
by creates and modifies).  In particular a create-then-delete pair with no
later events on the path cancels, but a path removed before being created, or
touched again after a cancellation, stays dirty. -/
theorem claim1_amended_cancellation (evs : List Event) (root : FsPath)
    (h1 : ∀ e ∈ evs, ∃ q, e.paths = [q])
    (h2 : ∀ e ∈ evs, e.kind = EventKind.create ∨ e.kind = EventKind.modify
            ∨ e.kind = EventKind.remove) :
    (applyAll (DirtyTracker.initial root) evs).paths
      = (touchedPaths evs).filter
          (fun p => endsCancelled (kindsAt p evs) = false) := by
  ext p
  have hm := applyAll_mem evs h1 (DirtyTracker.initial root) p
  have hko : ∀ k ∈ kindsAt p evs, k ≠ EventKind.other := by
    intro k hk
    obtain ⟨e, he, hke⟩ := List.mem_map.1 hk
    have he2 : e ∈ evs := (List.mem_filter.1 he).1
    rcases h2 e he2 with h | h | h <;> rw [← hke, h] <;> intro hc <;> cases hc
  have hchar := stepP_foldl_char (kindsAt p evs) hko
  have hinit : (decide (p ∈ (DirtyTracker.initial root).paths),
      decide (p ∈ (DirtyTracker.initial root).created)) = (false, false) := by
    simp [DirtyTracker.initial]
  rw [hinit] at hm
  rw [hchar] at hm
  have hfst := congrArg Prod.fst hm
  simp only at hfst
  rw [Finset.mem_filter, mem_touchedPaths]
  constructor
  · intro hp
    have : decide (p ∈ (applyAll (DirtyTracker.initial root) evs).paths) = true :=
      decide_eq_true hp
    rw [hfst] at this
    have hne : kindsAt p evs ≠ [] := by
      intro hnil
      rw [hnil] at this
      simp at this
    have htouch : ∃ e ∈ evs, p ∈ e.paths := by
      by_contra hc
      push_neg at hc
      exact hne ((kindsAt_eq_nil p evs).2 hc)
    refine ⟨htouch, ?_⟩
    rcases Bool.eq_false_or_eq_true (endsCancelled (kindsAt p evs)) with h | h
    · rw [h] at this
      simp at this
    · exact h
  · rintro ⟨⟨e, he, hpe⟩, hcanc⟩
    have hne : ¬ kindsAt p evs = [] := by
      intro hnil
      exact ((kindsAt_eq_nil p evs).1 hnil) e he hpe
    have : decide (p ∈ (applyAll (DirtyTracker.initial root) evs).paths) = true := by
      rw [hfst, hcanc]
      simp [List.isEmpty_iff, hne]
    exact of_decide_eq_true this

/-- Witness for the amended C1 at a concrete sequence: a created-then-removed
path cancels, a modified path and a removed pre-existing path stay dirty. -/
theorem claim1_witness :
    (applyAll (DirtyTracker.initial [0])
        [⟨EventKind.create, [[1]], false⟩, ⟨EventKind.remove, [[1]], false⟩,
         ⟨EventKind.modify, [[2]], false⟩, ⟨EventKind.remove, [[3]], false⟩]).paths
      = (touchedPaths
          [⟨EventKind.create, [[1]], false⟩, ⟨EventKind.remove, [[1]], false⟩,
           ⟨EventKind.modify, [[2]], false⟩, ⟨EventKind.remove, [[3]], false⟩]).filter
          (fun p => endsCancelled (kindsAt p
            [⟨EventKind.create, [[1]], false⟩, ⟨EventKind.remove, [[1]], false⟩,
             ⟨EventKind.modify, [[2]], false⟩, ⟨EventKind.remove, [[3]], false⟩]) = false) :=
  claim1_amended_cancellation
    [⟨EventKind.create, [[1]], false⟩, ⟨EventKind.remove, [[1]], false⟩,
     ⟨EventKind.modify, [[2]], false⟩, ⟨EventKind.remove, [[3]], false⟩] [0]
    (by intro e he
        fin_cases he <;> exact ⟨_, rfl⟩)
    (by intro e he
        fin_cases he <;> simp)

/-! ## The state machine (C4, C5, C6) -/

/-- C4: the reported state is a pure function of the rescan flag, the drain
outcome, and the emptiness of the dirty set — `Unknown` iff the rescan flag is
set or the drain failed, `Clean` iff not unknown and the set is empty, `Dirty`
iff not unknown and the set is non-empty — and `paths` answers `None` exactly
when `state` answers `Unknown`, otherwise `Some` of the dirty set. -/
theorem claim4_state_pure_function (t : DirtyTracker) (o : DrainOutcome)
    (h : o ≠ DrainOutcome.blocks) :
    (stateFromDrain t o = some State.unknown
        ↔ (t.need_rescan = true ∨ ∃ er, o = DrainOutcome.err er))
    ∧ (stateFromDrain t o = some State.clean
        ↔ (stateFromDrain t o ≠ some State.unknown ∧ t.paths = ∅))
    ∧ (stateFromDrain t o = some State.dirty
        ↔ (stateFromDrain t o ≠ some State.unknown ∧ t.paths ≠ ∅))
    ∧ (pathsFromDrain t o = some none ↔ stateFromDrain t o = some State.unknown)
    ∧ (stateFromDrain t o ≠ some State.unknown
        → pathsFromDrain t o = some (some t.paths)) := by
  cases o with
  | blocks => exact absurd rfl h
  | err er => simp [stateFromDrain, pathsFromDrain]
  | ok =>
      by_cases hr : t.need_rescan <;> by_cases hp : t.paths = ∅ <;>
        simp [stateFromDrain, pathsFromDrain, hr, hp]

/-- Witness for C4: on a fresh tracker after a successful drain, the clean
branch of the pure state function fires. -/
theorem claim4_witness :
    stateFromDrain (DirtyTracker.initial [0]) DrainOutcome.ok = some State.clean :=
  ((claim4_state_pure_function (DirtyTracker.initial [0]) DrainOutcome.ok
      (by decide)).2.1).mpr ⟨by decide, rfl⟩

/-- Over a whole drain the rescan flag can only be turned on, never off. -/
lemma drainGo_need_rescan_mono (dummy : FsPath) (tmo : Option Nat) :
    ∀ (evs : List Event) (ce : ChanEnd) (t : DirtyTracker),
      t.need_rescan = true → (drainGo dummy tmo t evs ce).1.need_rescan = true := by
  intro evs
  induction evs with
  | nil =>
      intro ce t ht
      cases ce with
      | disconnected => exact ht
      | stillOpen => cases tmo <;> exact ht
  | cons ev evs ih =>
      intro ce t ht
      rw [drainGo]
      by_cases hs : is_sentinel_delete_event dummy ev = true
      · rw [if_pos hs]
        show (process_pending_event t ev).need_rescan = true
        rw [ppe_need_rescan, ht]
        rfl
      · rw [if_neg hs]
        exact ih ce _ (by rw [ppe_need_rescan, ht]; rfl)

/-- C5: the rescan flag is sticky.  Once set, processing any further event
leaves it set, a whole drain leaves it set, and any completed query then
reports `Unknown` with no path set, whatever the contents of the dirty set
(in particular when it is empty); moreover any event carrying the overflow
flag sets it. -/
theorem claim5_rescan_sticky (t : DirtyTracker) (hre : t.need_rescan = true) :
    (∀ e : Event, (process_pending_event t e).need_rescan = true)
    ∧ (∀ (dummy : FsPath) (tmo : Option Nat) (evs : List Event) (ce : ChanEnd),
        (drainGo dummy tmo t evs ce).1.need_rescan = true)
    ∧ (∀ o : DrainOutcome, o ≠ DrainOutcome.blocks →
        stateFromDrain t o = some State.unknown ∧ pathsFromDrain t o = some none)
    ∧ (∀ (t2 : DirtyTracker) (e : Event), e.need_rescan = true →
        (process_pending_event t2 e).need_rescan = true) := by
  refine ⟨?_, ?_, ?_, ?_⟩
  · intro e; rw [ppe_need_rescan, hre]; rfl
  · intro dummy tmo evs ce
    exact drainGo_need_rescan_mono dummy tmo evs ce t hre
  · intro o ho
    cases o with
    | blocks => exact absurd rfl ho
    | err er => exact ⟨rfl, rfl⟩
    | ok => simp [stateFromDrain, pathsFromDrain, hre]
  · intro t2 e he
    rw [ppe_need_rescan, he]
    cases t2.need_rescan <;> rfl

/-- Witness for C5 on a concrete tracker whose rescan flag is set and whose
dirty set is empty: event processing keeps the flag and the queries report
`Unknown` and no paths. -/
theorem claim5_witness :
    (process_pending_event ⟨[0], ∅, ∅, true⟩ ⟨EventKind.modify, [[2]], false⟩).need_rescan
        = true
    ∧ stateFromDrain ⟨[0], ∅, ∅, true⟩ DrainOutcome.ok = some State.unknown
    ∧ pathsFromDrain ⟨[0], ∅, ∅, true⟩ DrainOutcome.ok = some none :=
  ⟨(claim5_rescan_sticky ⟨[0], ∅, ∅, true⟩ rfl).1 ⟨EventKind.modify, [[2]], false⟩,
   ((claim5_rescan_sticky ⟨[0], ∅, ∅, true⟩ rfl).2.2.1 DrainOutcome.ok (by decide)).1,
   ((claim5_rescan_sticky ⟨[0], ∅, ∅, true⟩ rfl).2.2.1 DrainOutcome.ok (by decide)).2⟩

/-- C6 counterexample: on a tracker whose channel has disconnected,
`mark_clean` succeeds (the drain's `Disconnected` error is swallowed) and
clears everything, yet the very next `state()` call reports `Unknown`, not
`Clean` — its own drain fails again on the dead channel. -/
theorem claim6_counterexample :
    mark_clean (DirtyTracker.initial [0]) [1] [] ChanEnd.disconnected
        = some (DirtyTracker.initial [0], [])
      ∧ stateQuery (DirtyTracker.initial [0]) [2] [] ChanEnd.disconnected
          = some State.unknown
      ∧ pathsQuery (DirtyTracker.initial [0]) [2] [] ChanEnd.disconnected
          = some none := by decide

/-- A query on a cleared tracker whose drain consumes exactly its own marker's
create/remove pair answers `Clean` with an empty path set. -/
lemma quiet_query_clean (tc : DirtyTracker) (dummy2 : FsPath)
    (hP : tc.paths = ∅) (hC : tc.created = ∅) (hn : tc.need_rescan = false) :
    stateQuery tc dummy2
        [⟨EventKind.create, [dummy2], false⟩, ⟨EventKind.remove, [dummy2], false⟩]
        ChanEnd.stillOpen = some State.clean
    ∧ pathsQuery tc dummy2
        [⟨EventKind.create, [dummy2], false⟩, ⟨EventKind.remove, [dummy2], false⟩]
        ChanEnd.stillOpen = some (some ∅) := by
  obtain ⟨tp, tP, tC, tn⟩ := tc
  simp only at hP hC hn
  subst hP; subst hC; subst hn
  constructor <;>
    simp [stateQuery, pathsQuery, drainGo, stateFromDrain, pathsFromDrain,
      process_pending_event, is_sentinel_delete_event]

/-- C6 amended: `mark_clean` first runs a drain whose error is swallowed, then
unconditionally clears the dirty set, the created set, and the rescan flag;
immediately afterwards a query whose own drain succeeds while consuming only
its marker's create/remove pair (an alive, quiet channel) reports `Clean` with
an empty path set.  When the channel is disconnected this guarantee fails —
see the counterexample — because every later drain fails again. -/
theorem claim6_amended_mark_clean (t tc : DirtyTracker) (dummy dummy2 : FsPath)
    (evs rest : List Event) (ce : ChanEnd)
    (h : mark_clean t dummy evs ce = some (tc, rest)) :
    tc.paths = ∅ ∧ tc.created = ∅ ∧ tc.need_rescan = false
    ∧ stateQuery tc dummy2
        [⟨EventKind.create, [dummy2], false⟩, ⟨EventKind.remove, [dummy2], false⟩]
        ChanEnd.stillOpen = some State.clean
    ∧ pathsQuery tc dummy2
        [⟨EventKind.create, [dummy2], false⟩, ⟨EventKind.remove, [dummy2], false⟩]
        ChanEnd.stillOpen = some (some ∅) := by
  have h3 : tc.paths = ∅ ∧ tc.created = ∅ ∧ tc.need_rescan = false := by
    unfold mark_clean at h
    rcases hdg : drainGo dummy none t evs ce with ⟨t', o, rest'⟩
    rw [hdg] at h
    cases o with
    | blocks => exact absurd h (by simp)
    | ok =>
        simp only [Option.some.injEq, Prod.mk.injEq] at h
        rw [← h.1]
        exact ⟨rfl, rfl, rfl⟩
    | err er =>
        simp only [Option.some.injEq, Prod.mk.injEq] at h
        rw [← h.1]
        exact ⟨rfl, rfl, rfl⟩
  obtain ⟨hP, hC, hn⟩ := h3
  have hq := quiet_query_clean tc dummy2 hP hC hn
  exact ⟨hP, hC, hn, hq.1, hq.2⟩

/-- Witness for the amended C6: a dirty tracker with the rescan flag set is
marked clean over an alive channel; the cleared tracker's next quiet query
answers `Clean` and the empty set. -/
theorem claim6_witness :
    (⟨[0], ∅, ∅, false⟩ : DirtyTracker).paths = ∅
    ∧ (⟨[0], ∅, ∅, false⟩ : DirtyTracker).created = ∅
    ∧ (⟨[0], ∅, ∅, false⟩ : DirtyTracker).need_rescan = false
    ∧ stateQuery ⟨[0], ∅, ∅, false⟩ [2]
        [⟨EventKind.create, [[2]], false⟩, ⟨EventKind.remove, [[2]], false⟩]
        ChanEnd.stillOpen = some State.clean
    ∧ pathsQuery ⟨[0], ∅, ∅, false⟩ [2]
        [⟨EventKind.create, [[2]], false⟩, ⟨EventKind.remove, [[2]], false⟩]
        ChanEnd.stillOpen = some (some ∅) :=
  claim6_amended_mark_clean ⟨[0], {[5]}, {[5]}, true⟩ ⟨[0], ∅, ∅, false⟩ [1] [2]
    [⟨EventKind.remove, [[1]], false⟩] [] ChanEnd.stillOpen (by decide)

/-! ## Relative paths (C10) -/

/-- C10: `relpaths` is total only when every dirty path has the root as a
prefix.  When the path query succeeds, either every dirty path extends the
root and the result is the same set with the root stripped from each element,
or some dirty path does not and the call panics (the `strip_prefix` result is
unwrapped) instead of returning `None` or an error. -/
theorem claim10_relpaths_strip_or_panic (t : DirtyTracker) (o : DrainOutcome)
    (s : Finset FsPath) (h : pathsFromDrain t o = some (some s)) :
    ((∀ p ∈ s, t.path.isPrefixOf p = true) →
        relpathsFromDrain t o
          = some (PanicOr.value (some (s.image (fun p => p.drop t.path.length)))))
    ∧ ((∃ p ∈ s, ¬ t.path.isPrefixOf p = true) →
        relpathsFromDrain t o = some PanicOr.panicked) := by
  constructor
  · intro hall
    rw [relpathsFromDrain, h]
    have hall2 : ∀ p ∈ s, t.path <+: p :=
      fun p hp => List.isPrefixOf_iff_prefix.1 (hall p hp)
    simp only [stripAllUnwrap, Option.map_some', List.isPrefixOf_iff_prefix]
    rw [if_pos hall2]
  · rintro ⟨p, hp, hnp⟩
    rw [relpathsFromDrain, h]
    have hna : ¬ ∀ q ∈ s, t.path <+: q :=
      fun hc => hnp (List.isPrefixOf_iff_prefix.2 (hc p hp))
    simp only [stripAllUnwrap, Option.map_some', List.isPrefixOf_iff_prefix]
    rw [if_neg hna]

/-- Witness for C10: a dirty path under the root is stripped; a dirty path
outside the root makes the call panic. -/
theorem claim10_witness :
    relpathsFromDrain ⟨[0], {[0, 3]}, ∅, false⟩ DrainOutcome.ok
        = some (PanicOr.value
            (some (Finset.image (fun p => p.drop 1) ({[0, 3]} : Finset FsPath))))
    ∧ relpathsFromDrain ⟨[0], {[5]}, ∅, false⟩ DrainOutcome.ok
        = some PanicOr.panicked :=
  ⟨(claim10_relpaths_strip_or_panic ⟨[0], {[0, 3]}, ∅, false⟩ DrainOutcome.ok
      {[0, 3]} rfl).1 (by decide),
   (claim10_relpaths_strip_or_panic ⟨[0], {[5]}, ∅, false⟩ DrainOutcome.ok
      {[5]} rfl).2 ⟨[5], by decide, by decide⟩⟩
